import Mathlib

set_option maxRecDepth 4000

/-!
Shallow embedding of the PAGE_BOT event-routing core: the duplicate-suppression
cache (src/utils/trackers.js, class MessageTracker), the dispatcher
(main server file, processMessagingEvent / processFeedEvent), the unified event
handlers (handleMessage / handlePostback / handleComment and their helpers) and
the plugin loader (class PluginLoader).  JavaScript machine state is made
explicit: Date.now() millisecond clocks, the wall-clock date string and the
user-store lookups are passed as parameters, JS Maps become association lists
in insertion order, JS Sets become duplicate-free lists, thrown exceptions
become Except values, and outbound sends / plugin invocations are recorded as
an effect list.
-/

namespace PageBot

/-- A JavaScript runtime error value, as raised inside handlers. -/
inductive JsError where
  | typeError (msg : String)
  | jsError (msg : String)
deriving Repr, DecidableEq

instance {ε α : Type} [DecidableEq ε] [DecidableEq α] : DecidableEq (Except ε α) := fun x y =>
  match x, y with
  | Except.ok a, Except.ok b =>
      if h : a = b then isTrue (by rw [h]) else isFalse (fun hh => by cases hh; exact h rfl)
  | Except.ok _, Except.error _ => isFalse (fun h => by cases h)
  | Except.error _, Except.ok _ => isFalse (fun h => by cases h)
  | Except.error e, Except.error f =>
      if h : e = f then isTrue (by rw [h]) else isFalse (fun hh => by cases hh; exact h rfl)

/-- Millisecond clock value, as returned by Date.now(). -/
abbrev Millis := Nat

/-!
String primitives of the embedding, written by structural recursion over the
character list so that every definition reduces inside the kernel.  They model
the JS string operations the handlers use, on the ASCII texts in play: JS
indexes by UTF-16 units and character counting coincides on ASCII.
-/

/-- Whitespace characters recognised by the regex class backslash-s, on the
ASCII range in use. -/
def isWsChar (c : Char) : Bool :=
  c == ' ' || c == '\t' || c == '\n' || c == '\r'

/-- Removal of leading whitespace characters. -/
def dropLeadingWs : List Char → List Char
  | [] => []
  | c :: cs => if isWsChar c then dropLeadingWs cs else c :: cs

/-- String.prototype.trim: strip whitespace from both ends. -/
def strTrim (s : String) : String :=
  ⟨dropLeadingWs ((dropLeadingWs s.data.reverse).reverse)⟩

/-- Test that the second list begins with the first. -/
def charsBeginWith : List Char → List Char → Bool
  | [], _ => true
  | _ :: _, [] => false
  | p :: ps, c :: cs => p == c && charsBeginWith ps cs

/-- String.prototype.startsWith. -/
def strStartsWith (s pfx : String) : Bool :=
  charsBeginWith pfx.data s.data

/-- String.prototype.slice from a character index to the end. -/
def strDrop (s : String) (n : Nat) : String := ⟨s.data.drop n⟩

/-- Length of a string in characters. -/
def strLength (s : String) : Nat := s.data.length

/-- ASCII lowercasing of one character, as both String.prototype.toLowerCase
and Lean's Char.toLower act on the ASCII letters in use. -/
def lowerChar (c : Char) : Char :=
  if 'A' ≤ c && c ≤ 'Z' then Char.ofNat (c.toNat + 32) else c

/-- String.prototype.toLowerCase on ASCII text. -/
def strToLower (s : String) : String := ⟨s.data.map lowerChar⟩

/-- Accumulating pass of the whitespace split. -/
def splitWsGo : List Char → List Char → List String
  | [], acc => if acc.isEmpty then [] else [⟨acc.reverse⟩]
  | c :: cs, acc =>
    if isWsChar c then
      if acc.isEmpty then splitWsGo cs [] else (⟨acc.reverse⟩ : String) :: splitWsGo cs []
    else splitWsGo cs (c :: acc)

/-- Split on runs of whitespace, as the regex split of the handler does on an
already-trimmed string: the whitespace-separated nonempty tokens in order. -/
def splitWs (s : String) : List String := splitWsGo s.data []

/-- Lexicographic comparison of character lists by code point. -/
def charsLE : List Char → List Char → Bool
  | [], _ => true
  | _ :: _, [] => false
  | a :: as, b :: bs => if a < b then true else if b < a then false else charsLE as bs

/-- The default JS string sort order (code-unit lexicographic). -/
def strLE (a b : String) : Bool := charsLE a.data b.data

/-- Array.prototype.join with a separator. -/
def joinWith (sep : String) : List String → String
  | [] => ""
  | [s] => s
  | s :: rest => s ++ sep ++ joinWith sep rest

/-- One entry of a MessageTracker history map:
JS object with fields timestamp, optional type, expiresAt. -/
structure HistEntry where
  timestamp : Millis
  entryType : Option String
  expiresAt : Millis
deriving Repr, DecidableEq

/-- A JS Map with string keys holding history entries, in insertion order. -/
abbrev HistMap := List (String × HistEntry)

/-- Map.has: key membership test. -/
def histHas (m : HistMap) (k : String) : Bool :=
  m.any (fun e => e.1 == k)

/-- Map.set: replace in place when the key exists, else append. -/
def histSet (m : HistMap) (k : String) (v : HistEntry) : HistMap :=
  if histHas m k then m.map (fun e => if e.1 == k then (k, v) else e)
  else m ++ [(k, v)]

/-- Map.get: first entry with the key. -/
def histGet (m : HistMap) (k : String) : Option HistEntry :=
  (m.find? (fun e => e.1 == k)).map (fun e => e.2)

/-- Daily counters dailyCounts of MessageTracker. -/
structure DailyCounts where
  messages : Nat
  comments : Nat
  postbacks : Nat
  duplicates : Nat
deriving Repr, DecidableEq

/-- Zeroed counters, as produced by the constructor and resetDailyCounters. -/
def DailyCounts.zero : DailyCounts := ⟨0, 0, 0, 0⟩

/-- State of class MessageTracker (trackers.js): three history maps, the
daily counters, and the date string of the last counter reset. -/
structure MessageTracker where
  messageHistory : HistMap
  commentHistory : HistMap
  postbackHistory : HistMap
  dailyCounts : DailyCounts
  lastReset : String
deriving Repr, DecidableEq

/-- MessageTracker constructor: empty histories, zero counters,
lastReset set to the current date string. -/
def MessageTracker.fresh (today : String) : MessageTracker :=
  ⟨[], [], [], DailyCounts.zero, today⟩

/-- Interpolation of a possibly-missing JS number into a template string:
a missing value renders as the literal text undefined. -/
def jsNumToStr : Option Nat → String
  | some n => toString n
  | none => "undefined"

/-- Identity key built by isDuplicate: senderId, underscore, timestamp. -/
def mkMessageKey (senderId : String) (timestamp : Option Nat) : String :=
  senderId ++ "_" ++ jsNumToStr timestamp

/-- JSON.stringify of a string value: the string wrapped in double quotes
(escaping of exotic characters is not modelled; payloads here are plain). -/
def jsonStringifyStr (s : String) : String := "\"" ++ s ++ "\""

/-- Identity key built by isDuplicatePostback:
senderId, underscore, JSON.stringify(payload), underscore, timestamp. -/
def mkPostbackKey (senderId payload : String) (timestamp : Option Nat) : String :=
  senderId ++ "_" ++ jsonStringifyStr payload ++ "_" ++ jsNumToStr timestamp

/-- MessageTracker.cleanOldEntries: delete from all three history maps every
entry whose expiresAt is strictly below the current clock. -/
def cleanOldEntries (tr : MessageTracker) (now : Millis) : MessageTracker :=
  { tr with
    messageHistory := tr.messageHistory.filter (fun e => !(e.2.expiresAt < now : Bool))
    commentHistory := tr.commentHistory.filter (fun e => !(e.2.expiresAt < now : Bool))
    postbackHistory := tr.postbackHistory.filter (fun e => !(e.2.expiresAt < now : Bool)) }

/-- Bump of the duplicates counter, shared by the three duplicate checks. -/
def bumpDuplicates (tr : MessageTracker) : MessageTracker :=
  { tr with dailyCounts := { tr.dailyCounts with duplicates := tr.dailyCounts.duplicates + 1 } }

/-- MessageTracker.isDuplicate(senderId, timestamp, type): if the key is
already in messageHistory, count a duplicate and answer true; otherwise run
cleanOldEntries, then record the key with expiry now + 300000 ms and answer
false.  The current Date.now() is the explicit now argument. -/
def isDuplicate (tr : MessageTracker) (senderId : String) (timestamp : Option Nat)
    (type : String) (now : Millis) : Bool × MessageTracker :=
  let key := mkMessageKey senderId timestamp
  if histHas tr.messageHistory key then
    (true, bumpDuplicates tr)
  else
    let tr1 := cleanOldEntries tr now
    (false, { tr1 with messageHistory := histSet tr1.messageHistory key ⟨now, some type, now + 300000⟩ })

/-- MessageTracker.isDuplicateComment(commentId): membership test on
commentHistory; on a miss the id is recorded with expiry now + 300000 ms.
No cleanup runs here. -/
def isDuplicateComment (tr : MessageTracker) (commentId : String) (now : Millis) :
    Bool × MessageTracker :=
  if histHas tr.commentHistory commentId then
    (true, bumpDuplicates tr)
  else
    (false, { tr with commentHistory := histSet tr.commentHistory commentId ⟨now, none, now + 300000⟩ })

/-- MessageTracker.isDuplicatePostback(senderId, payload, timestamp):
membership test on postbackHistory with the sender+payload+timestamp key;
on a miss the key is recorded with expiry now + 300000 ms.  No cleanup runs
here.  (This method is defined by trackers.js but never invoked by the
dispatcher.) -/
def isDuplicatePostback (tr : MessageTracker) (senderId payload : String)
    (timestamp : Option Nat) (now : Millis) : Bool × MessageTracker :=
  let key := mkPostbackKey senderId payload timestamp
  if histHas tr.postbackHistory key then
    (true, bumpDuplicates tr)
  else
    (false, { tr with postbackHistory := histSet tr.postbackHistory key ⟨now, none, now + 300000⟩ })

/-- MessageTracker.checkDailyReset: when the current date string differs from
lastReset, zero the counters and remember the new date. -/
def checkDailyReset (tr : MessageTracker) (today : String) : MessageTracker :=
  if today ≠ tr.lastReset then
    { tr with dailyCounts := DailyCounts.zero, lastReset := today }
  else tr

/-- MessageTracker.track(senderId, timestamp, type): after the daily-reset
check, bump the counter selected by the type string; the switch has cases for
message, comment and postback only.  The dispatcher calls it without a type
argument, so the JS default parameter value message applies. -/
def track (tr : MessageTracker) (type : String) (today : String) : MessageTracker :=
  let tr1 := checkDailyReset tr today
  if type == "message" then
    { tr1 with dailyCounts := { tr1.dailyCounts with messages := tr1.dailyCounts.messages + 1 } }
  else if type == "comment" then
    { tr1 with dailyCounts := { tr1.dailyCounts with comments := tr1.dailyCounts.comments + 1 } }
  else if type == "postback" then
    { tr1 with dailyCounts := { tr1.dailyCounts with postbacks := tr1.dailyCounts.postbacks + 1 } }
  else tr1

/-- MessageTracker.trackComment(commentId): daily-reset check, then bump the
comments counter. -/
def trackComment (tr : MessageTracker) (today : String) : MessageTracker :=
  let tr1 := checkDailyReset tr today
  { tr1 with dailyCounts := { tr1.dailyCounts with comments := tr1.dailyCounts.comments + 1 } }

/-- MessageTracker.trackPostback(senderId, payload): daily-reset check, then
bump the postbacks counter.  (Defined by trackers.js but never invoked by the
dispatcher.) -/
def trackPostback (tr : MessageTracker) (today : String) : MessageTracker :=
  let tr1 := checkDailyReset tr today
  { tr1 with dailyCounts := { tr1.dailyCounts with postbacks := tr1.dailyCounts.postbacks + 1 } }

/-- Method names defined on class MessageTracker in trackers.js.  Property
access on a missing name yields undefined, and calling it raises a TypeError;
the handler module calls messageTracker.trackMessage, which is absent. -/
def messageTrackerMethodNames : List String :=
  ["constructor", "isDuplicate", "isDuplicateComment", "isDuplicatePostback",
   "track", "trackComment", "trackPostback", "cleanOldEntries",
   "checkDailyReset", "resetDailyCounters", "getTodayCount",
   "getTodayCommentCount", "getTodayPostbackCount", "getDuplicateCount",
   "getStats"]

/-- A call messageTracker.trackMessage(...): succeeds only if the method
exists on the class, otherwise raises the JS TypeError for calling a
non-function property. -/
def trackMessageCall : Except JsError Unit :=
  if messageTrackerMethodNames.contains "trackMessage" then Except.ok ()
  else Except.error (JsError.typeError "messageTracker.trackMessage is not a function")

/-!
Handler layer (the unified event handler module): parseCommand, handleMessage,
handlePostback, handleComment, handleQuickReply, handleAttachments,
handleCommand, handleRegularMessage, handleUnknownCommand.  Outbound sends and
plugin invocations are recorded as effects; a rejection of the async entry
point is an Except.error value.
-/

/-- Observable actions of a handler run: an fbApi.sendMessage call, the
invocation of a plugin's start, or the invocation of a comment reactor's run. -/
inductive Effect where
  | sent (recipientId text : String)
  | started (basename : String)
  | reactorRan (name : String)
deriving Repr, DecidableEq

/-- A postback payload after the JSON.parse-or-string step of handlePostback:
either an opaque string (parse failed or parsed to a string) or an object,
of which only the action field is consulted. -/
inductive Payload where
  | str (s : String)
  | obj (action : Option String)
deriving Repr, DecidableEq

/-- One message attachment, by its type tag; location carries coordinates. -/
inductive Attachment where
  | image
  | video
  | audio
  | file
  | location (lat long : Int)
  | other (tag : String)
deriving Repr, DecidableEq

/-- The message object of a messaging event: optional text, attachments, and
an optional quick-reply payload (already through the JSON.parse-or-string
step that handlePostback applies to it). -/
structure IncomingMessage where
  text : Option String
  attachments : List Attachment
  quickReplyPayload : Option Payload
deriving Repr, DecidableEq

/-- The config object of a command plugin module. -/
structure CommandConfig where
  name : String
  aliases : Option (List String)
  category : Option String
deriving Repr, DecidableEq

/-- A command plugin module: its file basename, its config, whether it
declares a start function, and whether that start throws when invoked
(plugin business logic is abstracted to its termination behaviour). -/
structure CommandPlugin where
  basename : String
  config : CommandConfig
  hasStart : Bool
  startExc : Option JsError
deriving Repr, DecidableEq

/-- A postback plugin module: file basename, string payload matcher (the
repository's postback plugins all use string payloads), start presence and
start behaviour. -/
structure PostbackPlugin where
  basename : String
  payload : String
  hasStart : Bool
  startExc : Option JsError
deriving Repr, DecidableEq

/-- The comment event object assembled by processFeedEvent and consumed by
handleComment and the comment reactors. -/
structure CommentData where
  commentId : String
  postId : String
  senderId : String
  senderName : String
  message : String
  createdAt : Option Nat
deriving Repr, DecidableEq

/-- A comment reactor as the dispatcher sees it: a name and its run function,
which may return handled or not, or throw. -/
structure CommentReactor where
  name : String
  run : CommentData → Except JsError Bool

/-- Values relevant to dispatch read from config.json (the configuration file
itself is data outside the handler code): the global command prefix
config.bot.prefix and the admin id list config.security.adminUIDs. -/
structure BotConfig where
  globalPfx : String
  adminUIDs : List String
deriving Repr, DecidableEq

/-- Result of parseCommand: lowercased command name, argument tokens in
original order and case, and the original text. -/
structure CommandData where
  command : String
  args : List String
  original : String
deriving Repr, DecidableEq

/-- parseCommand(text, prefix): null when text is empty, when the prefix is
empty, or when text does not start with the prefix; otherwise strip the
prefix, trim, and when something remains split it on whitespace, lowercasing
the first token as the command name. -/
def parseCommand (text pfx : String) : Option CommandData :=
  if text == "" then none
  else if pfx == "" then none
  else if !(strStartsWith text pfx) then none
  else
    let trimmed := strTrim (strDrop text (strLength pfx))
    if strLength trimmed == 0 then none
    else
      match splitWs trimmed with
      | [] => none
      | c :: rest => some ⟨strToLower c, rest, text⟩

/-- Match test of handleCommand: exact equality of the registered name with
the (lowercased) command, or exact membership among the registered aliases. -/
def matchesCommand (p : CommandPlugin) (command : String) : Bool :=
  p.config.name == command ||
    (match p.config.aliases with
     | some al => al.contains command
     | none => false)

/-- Linear scan of the command plugins in registration order, as the for-of
loop of handleCommand performs. -/
def findCommandPlugin (cmds : List CommandPlugin) (command : String) : Option CommandPlugin :=
  cmds.find? (fun p => matchesCommand p command)

/-- Match test of the handlePostback loop: the plugin payload string equals
the payload (only possible for a string payload), or the payload is an object
whose action field equals the plugin payload. -/
def postbackMatches (pluginPayload : String) (payload : Payload) : Bool :=
  match payload with
  | Payload.str s => pluginPayload == s
  | Payload.obj action => action == some pluginPayload

/-- Linear scan of the postback plugins in registration order. -/
def findPostbackPlugin (pbs : List PostbackPlugin) (payload : Payload) :
    Option PostbackPlugin :=
  pbs.find? (fun p => postbackMatches p.payload payload)

/-- Invocation of a plugin's start: the invocation is observable, and the
call completes or throws according to the module's behaviour. -/
def startOutcome (exc : Option JsError) : Except JsError Unit :=
  match exc with
  | some e => Except.error e
  | none => Except.ok ()

/-- handleCommand(commandData, senderId, recipientId): find the first matching
command plugin; admin-category plugins require the sender to be in the admin
list, else a permission message is sent; otherwise start is invoked.  With no
match, handleUnknownCommand sends a not-found message. -/
def handleCommand (cfg : BotConfig) (cmds : List CommandPlugin) (cd : CommandData)
    (senderId : String) : List Effect × Except JsError Unit :=
  match findCommandPlugin cmds cd.command with
  | some p =>
    if p.config.category == some "admin" && !(cfg.adminUIDs.contains senderId) then
      ([Effect.sent senderId "You do not have permission to use this command."], Except.ok ())
    else
      ([Effect.started p.basename], startOutcome p.startExc)
  | none =>
    ([Effect.sent senderId
        ("Command \"" ++ cd.command ++ "\" not found. Use /help to see available commands.")],
     Except.ok ())

/-- Per-attachment acknowledgment sends of handleAttachments; the switch has
no default case, so unknown attachment types send nothing. -/
def attachmentEffects (senderId : String) : Attachment → List Effect
  | Attachment.image => [Effect.sent senderId "Thanks for the image!"]
  | Attachment.video => [Effect.sent senderId "Thanks for the video!"]
  | Attachment.audio => [Effect.sent senderId "Thanks for the audio message!"]
  | Attachment.file => [Effect.sent senderId "Thanks for the file!"]
  | Attachment.location lat long =>
      [Effect.sent senderId
        ("Thanks for sharing your location: " ++ toString lat ++ ", " ++ toString long)]
  | Attachment.other _ => []

/-- handleAttachments(attachments, senderId): acknowledge each attachment in
order. -/
def handleAttachments (atts : List Attachment) (senderId : String) : List Effect :=
  (atts.map (attachmentEffects senderId)).flatten

/-- The four canned replies of handleRegularMessage. -/
def regularResponses : List String :=
  ["Thanks for your message!",
   "How can I help you today?",
   "You can use commands like /help to see what I can do!",
   "I'm here to assist you with your questions."]

/-- handleRegularMessage(text, senderId): send one canned reply picked by
Math.random, made explicit as a rand parameter. -/
def handleRegularMessage (rand : Nat) (senderId : String) : List Effect :=
  [Effect.sent senderId (regularResponses.getD (rand % 4) "")]

/-- handlePostback(postback, senderId, recipientId, timestamp): inside try,
scan the postback plugins; on a match invoke start and then call
messageTracker.trackMessage, a method the tracker class does not define; with
no match send the unavailable-action message.  The catch block logs and calls
the same missing trackMessage method, whose TypeError escapes the catch, so
the async function rejects. -/
def handlePostback (pbs : List PostbackPlugin) (payload : Payload)
    (senderId : String) : List Effect × Except JsError Unit :=
  let tryResult : List Effect × Except JsError Unit :=
    match findPostbackPlugin pbs payload with
    | some p =>
      match startOutcome p.startExc with
      | Except.error e => ([Effect.started p.basename], Except.error e)
      | Except.ok () =>
        match trackMessageCall with
        | Except.error e => ([Effect.started p.basename], Except.error e)
        | Except.ok () => ([Effect.started p.basename], Except.ok ())
    | none =>
      ([Effect.sent senderId "Sorry, that action is not available right now."], Except.ok ())
  match tryResult with
  | (effs, Except.ok ()) => (effs, Except.ok ())
  | (effs, Except.error _) =>
    match trackMessageCall with
    | Except.error e2 => (effs, Except.error e2)
    | Except.ok () => (effs, Except.ok ())

/-- handleQuickReply(quickReply, senderId): quick replies are handled as
postbacks with the quick-reply payload. -/
def handleQuickReply (pbs : List PostbackPlugin) (payload : Payload)
    (senderId : String) : List Effect × Except JsError Unit :=
  handlePostback pbs payload senderId

/-- Truthiness of the user prefix returned by the user store: present and
non-empty. -/
def pfxTruthy : Option String → Bool
  | some s => s ≠ ""
  | none => false

/-- Routing body of handleMessage after the quick-reply branch: handle
attachments, resolve the prefix (user override first, then the global
prefix), parse, and either run handleCommand or handleRegularMessage. -/
def routeMessage (cfg : BotConfig) (cmds : List CommandPlugin)
    (userPfx : Option String) (rand : Nat) (msg : IncomingMessage)
    (senderId : String) : List Effect × Except JsError Unit :=
  let text := msg.text.getD ""
  let attEffs := handleAttachments msg.attachments senderId
  let commandData : Option CommandData :=
    if pfxTruthy userPfx && strStartsWith text (userPfx.getD "") then
      parseCommand text (userPfx.getD "")
    else if cfg.globalPfx ≠ "" && strStartsWith text cfg.globalPfx then
      parseCommand text cfg.globalPfx
    else none
  match commandData with
  | some cd =>
    let (cmdEffs, r) := handleCommand cfg cmds cd senderId
    (attEffs ++ cmdEffs, r)
  | none => (attEffs ++ handleRegularMessage rand senderId, Except.ok ())

/-- handleMessage(message, senderId, recipientId, timestamp): a quick reply is
returned directly to handleQuickReply (the returned promise's rejection
bypasses this function's catch).  Otherwise the routing body runs inside try,
followed by the call to the missing messageTracker.trackMessage method.  The
catch block logs, calls the missing trackMessage again — whose TypeError
escapes, rejecting the function before the apology send — and only if that
call were to succeed would it send the apology message. -/
def handleMessage (cfg : BotConfig) (cmds : List CommandPlugin)
    (pbs : List PostbackPlugin) (userPfx : Option String) (rand : Nat)
    (msg : IncomingMessage) (senderId : String) : List Effect × Except JsError Unit :=
  match msg.quickReplyPayload with
  | some qr => handleQuickReply pbs qr senderId
  | none =>
    let (routeEffs, r) := routeMessage cfg cmds userPfx rand msg senderId
    let tryResult : List Effect × Except JsError Unit :=
      match r with
      | Except.error e => (routeEffs, Except.error e)
      | Except.ok () =>
        match trackMessageCall with
        | Except.error e => (routeEffs, Except.error e)
        | Except.ok () => (routeEffs, Except.ok ())
    match tryResult with
    | (effs, Except.ok ()) => (effs, Except.ok ())
    | (effs, Except.error _) =>
      match trackMessageCall with
      | Except.error e2 => (effs, Except.error e2)
      | Except.ok () =>
        (effs ++ [Effect.sent senderId
          "Sorry, I encountered an error processing your message. Please try again."],
         Except.ok ())

/-- The for-of loop of handleComment: invoke each reactor's run in
registration order until one returns true or throws; a throw propagates out
of the loop. -/
def runReactors (rs : List CommentReactor) (cd : CommentData) :
    List Effect × Except JsError Bool :=
  match rs with
  | [] => ([], Except.ok false)
  | r :: rest =>
    match r.run cd with
    | Except.error e => ([Effect.reactorRan r.name], Except.error e)
    | Except.ok true => ([Effect.reactorRan r.name], Except.ok true)
    | Except.ok false =>
      let (effs, res) := runReactors rest cd
      (Effect.reactorRan r.name :: effs, res)

/-- handleComment(commentData, pageId): inside try, run the reactor loop; when
a reactor handled the comment the missing messageTracker.trackMessage is
called; when none handled it only a debug log happens.  The catch block again
calls the missing trackMessage, whose TypeError escapes, so the function
rejects whenever the try body threw. -/
def handleComment (rs : List CommentReactor) (cd : CommentData) :
    List Effect × Except JsError Unit :=
  let tryResult : List Effect × Except JsError Unit :=
    match runReactors rs cd with
    | (effs, Except.error e) => (effs, Except.error e)
    | (effs, Except.ok true) =>
      match trackMessageCall with
      | Except.error e => (effs, Except.error e)
      | Except.ok () => (effs, Except.ok ())
    | (effs, Except.ok false) => (effs, Except.ok ())
  match tryResult with
  | (effs, Except.ok ()) => (effs, Except.ok ())
  | (effs, Except.error _) =>
    match trackMessageCall with
    | Except.error e2 => (effs, Except.error e2)
    | Except.ok () => (effs, Except.ok ())

/-!
Dispatcher layer (main server file): processMessagingEvent and
processFeedEvent, with the Prometheus counters abstracted away and the
botState processed counters kept.
-/

/-- Body of one entry of the messaging array: the dispatcher branches on the
presence of the message, postback, read and delivery fields. -/
inductive MessagingEventBody where
  | message (msg : IncomingMessage)
  | postback (payload : Payload)
  | readReceipt
  | delivery
  | otherEvent
deriving Repr, DecidableEq

/-- One messaging event: sender and recipient ids and the body. -/
structure MessagingEvent where
  senderId : String
  recipientId : String
  body : MessagingEventBody
deriving Repr, DecidableEq

/-- The processed counters of the global botState object. -/
structure BotState where
  messagesProcessed : Nat
  commentsProcessed : Nat
  postbacksProcessed : Nat
deriving Repr, DecidableEq

/-- Result of one dispatcher step: the handler effects, the tracker state and
the botState counters afterwards. -/
structure ProcessResult where
  effects : List Effect
  tracker : MessageTracker
  bot : BotState
deriving Repr, DecidableEq

/-- processMessagingEvent(event, pageID, timestamp): gate every messaging
event — message, postback, read receipt, delivery alike — through
messageTracker.isDuplicate(senderId, timestamp), whose type argument defaults
to message; a duplicate is logged and dropped.  A non-duplicate is counted by
messageTracker.track(senderId, timestamp) — again with the default message
type — and botState.messagesProcessed is incremented, before the body is
routed to handleMessage or handlePostback.  A handler rejection is caught and
only logged, so the step itself completes. -/
def processMessagingEvent (cfg : BotConfig) (cmds : List CommandPlugin)
    (pbs : List PostbackPlugin) (userPfx : Option String) (rand : Nat)
    (ev : MessagingEvent) (timestamp : Option Nat) (tr : MessageTracker)
    (bs : BotState) (now : Millis) (today : String) : ProcessResult :=
  let (dup, tr1) := isDuplicate tr ev.senderId timestamp "message" now
  if dup then ⟨[], tr1, bs⟩
  else
    let tr2 := track tr1 "message" today
    let bs1 := { bs with messagesProcessed := bs.messagesProcessed + 1 }
    match ev.body with
    | MessagingEventBody.message msg =>
      let (effs, _) := handleMessage cfg cmds pbs userPfx rand msg ev.senderId
      ⟨effs, tr2, bs1⟩
    | MessagingEventBody.postback payload =>
      let (effs, _) := handlePostback pbs payload ev.senderId
      ⟨effs, tr2, bs1⟩
    | MessagingEventBody.readReceipt => ⟨[], tr2, bs1⟩
    | MessagingEventBody.delivery => ⟨[], tr2, bs1⟩
    | MessagingEventBody.otherEvent => ⟨[], tr2, bs1⟩

/-- One feed change of a webhook entry, flattened to the fields the dispatcher
reads. -/
structure FeedChange where
  field : String
  item : String
  verb : String
  commentId : String
  postId : String
  fromId : String
  fromName : String
  message : Option String
  createdTime : Option Nat
deriving Repr, DecidableEq

/-- processFeedEvent(change, pageID, timestamp): an added comment on the feed
is gated through isDuplicateComment(commentId); a non-duplicate is counted by
trackComment, botState.commentsProcessed is incremented, and handleComment
runs (its rejection is caught and only logged). -/
def processFeedEvent (reactors : List CommentReactor) (ch : FeedChange)
    (tr : MessageTracker) (bs : BotState) (now : Millis) (today : String) :
    ProcessResult :=
  if ch.field == "feed" && ch.item == "comment" && ch.verb == "add" then
    let (dup, tr1) := isDuplicateComment tr ch.commentId now
    if dup then ⟨[], tr1, bs⟩
    else
      let tr2 := trackComment tr1 today
      let bs1 := { bs with commentsProcessed := bs.commentsProcessed + 1 }
      let (effs, _) := handleComment reactors
        ⟨ch.commentId, ch.postId, ch.fromId, ch.fromName, ch.message.getD "", ch.createdTime⟩
      ⟨effs, tr2, bs1⟩
  else ⟨[], tr, bs⟩

/-!
Plugin loader layer (class PluginLoader): validation, duplicate-detection
keys, registration keyed by file basename, loadPlugin, loadAllPlugins and
reloadAll.  The directory listing is passed as the list of modules found (in
directory order, after the .js and leading-underscore filters); JS Maps again
become insertion-ordered association lists and the duplicates Set a
duplicate-free list.  loadAllPlugins starts the three kinds under Promise.all
and each kind loads its files sequentially; the trace below serialises the
kinds in declaration order — every interleaving passes through the same
per-plugin registration steps.
-/

/-- A comment plugin module as the loader sees it: file basename, the
constructor name used for its duplicate key, and whether it declares a run
function. -/
structure CommentModule where
  basename : String
  ctorName : Option String
  hasRun : Bool
deriving Repr, DecidableEq

/-- The registry state of the PluginLoader instance: three namespaces keyed by
file basename, plus the duplicates Set of registered duplicate keys. -/
structure PluginRegistry where
  commands : List (String × CommandPlugin)
  postbacks : List (String × PostbackPlugin)
  comments : List (String × CommentModule)
  duplicates : List String
deriving Repr, DecidableEq

/-- The registry as constructed (and as recreated by reloadAll): all three
namespaces and the duplicates set empty. -/
def emptyRegistry : PluginRegistry := ⟨[], [], [], []⟩

/-- Map.set keyed by basename. -/
def mapSet {α : Type} (m : List (String × α)) (k : String) (v : α) :
    List (String × α) :=
  if m.any (fun e => e.1 == k) then m.map (fun e => if e.1 == k then (k, v) else e)
  else m ++ [(k, v)]

/-- Set.add for the duplicates set. -/
def setAdd (s : List String) (k : String) : List String :=
  if s.contains k then s else s ++ [k]

/-- validatePlugin for commands: a config object with a string name and a
start function.  (A module without a config object is not representable here;
such modules are rejected and never registered, so nothing downstream depends
on them.) -/
def validateCommandPlugin (p : CommandPlugin) : Bool := p.hasStart

/-- validatePlugin for postbacks: a payload matcher and a start function. -/
def validatePostbackPlugin (p : PostbackPlugin) : Bool := p.hasStart

/-- validatePlugin for comments: a run function. -/
def validateCommentModule (m : CommentModule) : Bool := m.hasRun

/-- Insertion into a list sorted by the default JS string order. -/
def insertSorted (s : String) : List String → List String
  | [] => [s]
  | t :: ts => if strLE s t then s :: t :: ts else t :: insertSorted s ts

/-- Array.prototype.sort() on strings (default lexicographic comparator). -/
def sortStrings (l : List String) : List String :=
  l.foldr insertSorted []

/-- getDuplicateKey for a command plugin: the literal commands tag, the config
name, and the sorted aliases joined by commas (missing aliases default to the
empty array). -/
def commandDuplicateKey (p : CommandPlugin) : String :=
  "commands:" ++ p.config.name ++ ":" ++
    joinWith "," (sortStrings (p.config.aliases.getD []))

/-- getDuplicateKey for a postback plugin: the postbacks tag and the
JSON-serialized payload matcher. -/
def postbackDuplicateKey (p : PostbackPlugin) : String :=
  "postbacks:" ++ jsonStringifyStr p.payload

/-- getDuplicateKey for a comment plugin: the comments tag and the
constructor name, defaulting to anonymous. -/
def commentDuplicateKey (m : CommentModule) : String :=
  "comments:" ++ m.ctorName.getD "anonymous"

/-- loadPlugin for a command module: skip it when invalid, skip it when its
duplicate key is already registered, otherwise register it under its file
basename and add its key to the duplicates set. -/
def loadCommandPlugin (st : PluginRegistry) (p : CommandPlugin) : PluginRegistry :=
  if !validateCommandPlugin p then st
  else if st.duplicates.contains (commandDuplicateKey p) then st
  else
    { st with commands := mapSet st.commands p.basename p,
              duplicates := setAdd st.duplicates (commandDuplicateKey p) }

/-- loadPlugin for a postback module. -/
def loadPostbackPlugin (st : PluginRegistry) (p : PostbackPlugin) : PluginRegistry :=
  if !validatePostbackPlugin p then st
  else if st.duplicates.contains (postbackDuplicateKey p) then st
  else
    { st with postbacks := mapSet st.postbacks p.basename p,
              duplicates := setAdd st.duplicates (postbackDuplicateKey p) }

/-- loadPlugin for a comment module. -/
def loadCommentModule (st : PluginRegistry) (m : CommentModule) : PluginRegistry :=
  if !validateCommentModule m then st
  else if st.duplicates.contains (commentDuplicateKey m) then st
  else
    { st with comments := mapSet st.comments m.basename m,
              duplicates := setAdd st.duplicates (commentDuplicateKey m) }

/-- One discovered plugin file, tagged by the directory kind it came from. -/
inductive PluginFile where
  | cmd (p : CommandPlugin)
  | pb (p : PostbackPlugin)
  | cmt (m : CommentModule)
deriving Repr, DecidableEq

/-- Loading of one discovered file by its kind. -/
def loadFile (st : PluginRegistry) : PluginFile → PluginRegistry
  | PluginFile.cmd p => loadCommandPlugin st p
  | PluginFile.pb p => loadPostbackPlugin st p
  | PluginFile.cmt m => loadCommentModule st m

/-- The files processed by loadAllPlugins, kinds in declaration order. -/
def filesOf (cs : List CommandPlugin) (ps : List PostbackPlugin)
    (ms : List CommentModule) : List PluginFile :=
  cs.map PluginFile.cmd ++ ps.map PluginFile.pb ++ ms.map PluginFile.cmt

/-- loadAllPlugins over a starting registry state: fold loadPlugin over every
discovered file. -/
def loadAllPlugins (st : PluginRegistry) (cs : List CommandPlugin)
    (ps : List PostbackPlugin) (ms : List CommentModule) : PluginRegistry :=
  (filesOf cs ps ms).foldl loadFile st

/-- reloadAll(): replace the three namespaces by fresh empty Maps, clear the
duplicates set, then run loadAllPlugins on the now-empty registry.  The
previous registry contents are discarded unconditionally. -/
def reloadAll (_st : PluginRegistry) (cs : List CommandPlugin)
    (ps : List PostbackPlugin) (ms : List CommentModule) : PluginRegistry :=
  loadAllPlugins emptyRegistry cs ps ms

/-- Registry states visible after each single-plugin registration step of a
load that started from st. -/
def loadSteps (st : PluginRegistry) : List PluginFile → List PluginRegistry
  | [] => []
  | f :: fs =>
    let st1 := loadFile st f
    st1 :: loadSteps st1 fs

/-- Registry states a concurrent lookup can observe while reloadAll is in
progress: the cleared registry right after the namespaces are replaced, then
the state after each plugin registration.  (The await points of the loader
make each of these states reachable by an interleaved lookup.) -/
def reloadAllStates (_st : PluginRegistry) (cs : List CommandPlugin)
    (ps : List PostbackPlugin) (ms : List CommentModule) : List PluginRegistry :=
  emptyRegistry :: loadSteps emptyRegistry (filesOf cs ps ms)

/-- Command plugins in registration order, as getCommandPlugins returns them
to handleCommand (Map values in insertion order). -/
def registeredCommands (st : PluginRegistry) : List CommandPlugin :=
  st.commands.map (fun e => e.2)

/-- Entries of the commands namespace whose registered config name is n. -/
def commandsNamed (st : PluginRegistry) (n : String) : List (String × CommandPlugin) :=
  st.commands.filter (fun e => e.2.config.name == n)

/-- The duplicates field of getStats(): the size of the duplicates Set, which
holds one key per accepted registration. -/
def statsDuplicates (st : PluginRegistry) : Nat := st.duplicates.length

/-!
Supporting lemmas about the history maps and the tracker, shared by several
claims below.
-/

/-- Absence of a key is equivalent to no entry carrying it. -/
theorem histHas_eq_false_iff (m : HistMap) (k : String) :
    histHas m k = false ↔ ∀ e ∈ m, ¬(e.1 = k) := by
  simp [histHas, List.any_eq_false]

/-- Filtering cannot introduce a key. -/
theorem histHas_filter (p : String × HistEntry → Bool) (m : HistMap) (k : String)
    (h : histHas m k = false) : histHas (m.filter p) k = false := by
  rw [histHas_eq_false_iff] at h ⊢
  intro e he
  exact h e (List.mem_of_mem_filter he)

/-- An appended binding is found when the key was absent before. -/
theorem histGet_append_of_not_mem (m : HistMap) (k : String) (v : HistEntry)
    (h : ∀ e ∈ m, ¬(e.1 = k)) : histGet (m ++ [(k, v)]) k = some v := by
  induction m with
  | nil => simp [histGet]
  | cons e rest ih =>
    have he : ¬(e.1 = k) := h e (by simp)
    have h' : ∀ x ∈ rest, ¬(x.1 = k) := fun x hx => h x (List.mem_cons_of_mem _ hx)
    simpa [histGet, List.find?_cons, beq_eq_false_iff_ne.mpr he] using ih h'

/-- An appended binding makes the key present. -/
theorem histHas_append_self (m : HistMap) (k : String) (v : HistEntry) :
    histHas (m ++ [(k, v)]) k = true := by
  simp [histHas]

/-- Map.set on an absent key appends the binding. -/
theorem histSet_of_not_has (m : HistMap) (k : String) (v : HistEntry)
    (h : histHas m k = false) : histSet m k v = m ++ [(k, v)] := by
  simp [histSet, h]

/-- The tracker's history maps are untouched by track. -/
theorem track_histories (tr : MessageTracker) (ty today : String) :
    (track tr ty today).messageHistory = tr.messageHistory ∧
    (track tr ty today).commentHistory = tr.commentHistory ∧
    (track tr ty today).postbackHistory = tr.postbackHistory := by
  unfold track checkDailyReset
  repeat' split
  all_goals simp

/-- The tracker's history maps are untouched by trackComment. -/
theorem trackComment_histories (tr : MessageTracker) (today : String) :
    (trackComment tr today).messageHistory = tr.messageHistory ∧
    (trackComment tr today).commentHistory = tr.commentHistory ∧
    (trackComment tr today).postbackHistory = tr.postbackHistory := by
  unfold trackComment checkDailyReset
  repeat' split
  all_goals simp

/-- When no reset is due, track with the message type only bumps the messages
counter. -/
theorem track_message_counts (tr : MessageTracker) (today : String)
    (hday : tr.lastReset = today) :
    (track tr "message" today).dailyCounts =
      { tr.dailyCounts with messages := tr.dailyCounts.messages + 1 } := by
  simp [track, checkDailyReset, hday]

/-- When no reset is due, trackComment only bumps the comments counter. -/
theorem trackComment_counts (tr : MessageTracker) (today : String)
    (hday : tr.lastReset = today) :
    (trackComment tr today).dailyCounts =
      { tr.dailyCounts with comments := tr.dailyCounts.comments + 1 } := by
  simp [trackComment, checkDailyReset, hday]

/-- Branch equation: isDuplicate on a present key. -/
theorem isDuplicate_of_has (tr : MessageTracker) (s : String) (ts : Option Nat)
    (ty : String) (now : Millis)
    (h : histHas tr.messageHistory (mkMessageKey s ts) = true) :
    isDuplicate tr s ts ty now = (true, bumpDuplicates tr) := by
  simp [isDuplicate, h]

/-- Branch equation: isDuplicate on an absent key. -/
theorem isDuplicate_of_not_has (tr : MessageTracker) (s : String) (ts : Option Nat)
    (ty : String) (now : Millis)
    (h : histHas tr.messageHistory (mkMessageKey s ts) = false) :
    isDuplicate tr s ts ty now =
      (false, { cleanOldEntries tr now with
                messageHistory := histSet (cleanOldEntries tr now).messageHistory
                  (mkMessageKey s ts) ⟨now, some ty, now + 300000⟩ }) := by
  simp [isDuplicate, h]

/-- Branch equation: isDuplicateComment on a present key. -/
theorem isDuplicateComment_of_has (tr : MessageTracker) (c : String) (now : Millis)
    (h : histHas tr.commentHistory c = true) :
    isDuplicateComment tr c now = (true, bumpDuplicates tr) := by
  simp [isDuplicateComment, h]

/-- Branch equation: isDuplicateComment on an absent key. -/
theorem isDuplicateComment_of_not_has (tr : MessageTracker) (c : String) (now : Millis)
    (h : histHas tr.commentHistory c = false) :
    isDuplicateComment tr c now =
      (false, { tr with commentHistory := histSet tr.commentHistory c ⟨now, none, now + 300000⟩ }) := by
  simp [isDuplicateComment, h]

/-- Branch equation: isDuplicatePostback on a present key. -/
theorem isDuplicatePostback_of_has (tr : MessageTracker) (s pay : String)
    (ts : Option Nat) (now : Millis)
    (h : histHas tr.postbackHistory (mkPostbackKey s pay ts) = true) :
    isDuplicatePostback tr s pay ts now = (true, bumpDuplicates tr) := by
  simp [isDuplicatePostback, h]

/-- Branch equation: isDuplicatePostback on an absent key. -/
theorem isDuplicatePostback_of_not_has (tr : MessageTracker) (s pay : String)
    (ts : Option Nat) (now : Millis)
    (h : histHas tr.postbackHistory (mkPostbackKey s pay ts) = false) :
    isDuplicatePostback tr s pay ts now =
      (false,
        { tr with
          postbackHistory :=
            histSet tr.postbackHistory (mkPostbackKey s pay ts) ⟨now, none, now + 300000⟩ }) := by
  simp [isDuplicatePostback, h]

/-- A messaging event whose sender+timestamp key is already recorded is
suppressed: no effects, a bumped duplicates counter, untouched botState. -/
theorem processMessagingEvent_dup (cfg : BotConfig) (cmds : List CommandPlugin)
    (pbs : List PostbackPlugin) (userPfx : Option String) (rand : Nat)
    (ev : MessagingEvent) (ts : Option Nat) (tr : MessageTracker) (bs : BotState)
    (now : Millis) (today : String)
    (h : histHas tr.messageHistory (mkMessageKey ev.senderId ts) = true) :
    processMessagingEvent cfg cmds pbs userPfx rand ev ts tr bs now today =
      ⟨[], bumpDuplicates tr, bs⟩ := by
  simp [processMessagingEvent, isDuplicate, h]

/-- A messaging event whose sender+timestamp key is fresh goes through the
non-duplicate path: the key is recorded, track runs with the message type and
botState.messagesProcessed is bumped, whatever the event body is. -/
theorem processMessagingEvent_fresh (cfg : BotConfig) (cmds : List CommandPlugin)
    (pbs : List PostbackPlugin) (userPfx : Option String) (rand : Nat)
    (ev : MessagingEvent) (ts : Option Nat) (tr : MessageTracker) (bs : BotState)
    (now : Millis) (today : String)
    (h : histHas tr.messageHistory (mkMessageKey ev.senderId ts) = false) :
    (processMessagingEvent cfg cmds pbs userPfx rand ev ts tr bs now today).tracker =
      track { cleanOldEntries tr now with
              messageHistory :=
                histSet (cleanOldEntries tr now).messageHistory
                  (mkMessageKey ev.senderId ts) ⟨now, some "message", now + 300000⟩ }
        "message" today ∧
    (processMessagingEvent cfg cmds pbs userPfx rand ev ts tr bs now today).bot =
      { bs with messagesProcessed := bs.messagesProcessed + 1 } := by
  cases ev with
  | mk senderId recipientId body =>
    cases body <;> simp [processMessagingEvent, isDuplicate, h]

/-!
Claim C2: dedup check behaviour per kind.
-/

/-- Behaviour of the three duplicate checks on a fresh key, as the amended
claim C2 states it: the first check answers false and records the key with
expiry now + 5 minutes; every later check with the key — at any clock value
now2, before or after the expiry — answers true and bumps the duplicates
counter, because the checks consult raw key membership and never expiry; the
entry leaves the message cache only through cleanOldEntries (which the code
runs only inside a message-kind check that misses), after which a check with
the key answers false again. -/
def DedupRoundTrip (tr : MessageTracker) (s pay c ty : String) (ts : Option Nat)
    (now now2 now3 : Millis) : Prop :=
  (isDuplicate tr s ts ty now).1 = false ∧
  histGet (isDuplicate tr s ts ty now).2.messageHistory (mkMessageKey s ts) =
    some ⟨now, some ty, now + 300000⟩ ∧
  (isDuplicate (isDuplicate tr s ts ty now).2 s ts ty now2).1 = true ∧
  (isDuplicate (isDuplicate tr s ts ty now).2 s ts ty now2).2.dailyCounts.duplicates =
    (isDuplicate tr s ts ty now).2.dailyCounts.duplicates + 1 ∧
  (isDuplicate (cleanOldEntries (isDuplicate tr s ts ty now).2 now3) s ts ty now3).1 = false ∧
  (isDuplicateComment tr c now).1 = false ∧
  histGet (isDuplicateComment tr c now).2.commentHistory c = some ⟨now, none, now + 300000⟩ ∧
  (isDuplicateComment (isDuplicateComment tr c now).2 c now2).1 = true ∧
  (isDuplicateComment (isDuplicateComment tr c now).2 c now2).2.dailyCounts.duplicates =
    (isDuplicateComment tr c now).2.dailyCounts.duplicates + 1 ∧
  (isDuplicatePostback tr s pay ts now).1 = false ∧
  histGet (isDuplicatePostback tr s pay ts now).2.postbackHistory (mkPostbackKey s pay ts) =
    some ⟨now, none, now + 300000⟩ ∧
  (isDuplicatePostback (isDuplicatePostback tr s pay ts now).2 s pay ts now2).1 = true ∧
  (isDuplicatePostback (isDuplicatePostback tr s pay ts now).2 s pay ts now2).2.dailyCounts.duplicates =
    (isDuplicatePostback tr s pay ts now).2.dailyCounts.duplicates + 1

/-- Claim C2, counterexample: on the message cache, record the key s_1 at
clock 0 (expiry 300000); a check at clock 400000 — after the window has
elapsed, with no intervening calls on the cache — still answers true, where
the claim requires false, because isDuplicate tests membership before any
cleanup and an expired entry is still present. -/
theorem C2_counterexample :
    (isDuplicate (MessageTracker.fresh "d") "s" (some 1) "message" 0).1 = false ∧
    (histGet ((isDuplicate (MessageTracker.fresh "d") "s" (some 1) "message" 0).2).messageHistory
        (mkMessageKey "s" (some 1))).map (fun e => e.expiresAt) = some 300000 ∧
    (isDuplicate ((isDuplicate (MessageTracker.fresh "d") "s" (some 1) "message" 0).2)
        "s" (some 1) "message" 400000).1 = true := by
  decide

/-- Claim C2, amended: for each kind the first check on a fresh key answers
false and records expiry now + 5 minutes, and later checks answer true and
bump the duplicates counter — but regardless of elapsed time, not only before
expiry: the entry outlives its expiry until cleanOldEntries runs (which only a
message-kind check that misses triggers); only after such a cleanup past the
expiry does a check with the key answer false again. -/
theorem C2_amended (tr : MessageTracker) (s pay c ty : String) (ts : Option Nat)
    (now now2 now3 : Millis)
    (hm : histHas tr.messageHistory (mkMessageKey s ts) = false)
    (hc : histHas tr.commentHistory c = false)
    (hp : histHas tr.postbackHistory (mkPostbackKey s pay ts) = false)
    (hexp : now + 300000 < now3) :
    DedupRoundTrip tr s pay c ty ts now now2 now3 := by
  have hmc : histHas (cleanOldEntries tr now).messageHistory (mkMessageKey s ts) = false :=
    histHas_filter _ _ _ hm
  have hset : (isDuplicate tr s ts ty now).2.messageHistory =
      (cleanOldEntries tr now).messageHistory ++
        [(mkMessageKey s ts, ⟨now, some ty, now + 300000⟩)] := by
    rw [isDuplicate_of_not_has tr s ts ty now hm]
    exact histSet_of_not_has _ _ _ hmc
  have h2 : histHas (isDuplicate tr s ts ty now).2.messageHistory (mkMessageKey s ts) = true := by
    rw [hset]; exact histHas_append_self _ _ _
  have hsetc : (isDuplicateComment tr c now).2.commentHistory =
      tr.commentHistory ++ [(c, ⟨now, none, now + 300000⟩)] := by
    rw [isDuplicateComment_of_not_has tr c now hc]
    exact histSet_of_not_has _ _ _ hc
  have h2c : histHas (isDuplicateComment tr c now).2.commentHistory c = true := by
    rw [hsetc]; exact histHas_append_self _ _ _
  have hsetp : (isDuplicatePostback tr s pay ts now).2.postbackHistory =
      tr.postbackHistory ++ [(mkPostbackKey s pay ts, ⟨now, none, now + 300000⟩)] := by
    rw [isDuplicatePostback_of_not_has tr s pay ts now hp]
    exact histSet_of_not_has _ _ _ hp
  have h2p : histHas (isDuplicatePostback tr s pay ts now).2.postbackHistory
      (mkPostbackKey s pay ts) = true := by
    rw [hsetp]; exact histHas_append_self _ _ _
  have hfilterkv : (([(mkMessageKey s ts, (⟨now, some ty, now + 300000⟩ : HistEntry))] : HistMap).filter
      (fun e => !(e.2.expiresAt < now3 : Bool))) = [] := by
    simp [List.filter, hexp]
  have hclean : histHas (cleanOldEntries (isDuplicate tr s ts ty now).2 now3).messageHistory
      (mkMessageKey s ts) = false := by
    have hproj : (cleanOldEntries (isDuplicate tr s ts ty now).2 now3).messageHistory =
        (isDuplicate tr s ts ty now).2.messageHistory.filter
          (fun e => !(e.2.expiresAt < now3 : Bool)) := rfl
    rw [hproj, hset, List.filter_append, hfilterkv, List.append_nil]
    exact histHas_filter _ _ _ hmc
  refine ⟨by rw [isDuplicate_of_not_has tr s ts ty now hm], ?_,
    by rw [isDuplicate_of_has _ s ts ty now2 h2],
    by rw [isDuplicate_of_has _ s ts ty now2 h2]; rfl,
    by rw [isDuplicate_of_not_has _ s ts ty now3 hclean],
    by rw [isDuplicateComment_of_not_has tr c now hc], ?_,
    by rw [isDuplicateComment_of_has _ c now2 h2c],
    by rw [isDuplicateComment_of_has _ c now2 h2c]; rfl,
    by rw [isDuplicatePostback_of_not_has tr s pay ts now hp], ?_,
    by rw [isDuplicatePostback_of_has _ s pay ts now2 h2p],
    by rw [isDuplicatePostback_of_has _ s pay ts now2 h2p]; rfl⟩
  · rw [hset]
    exact histGet_append_of_not_mem _ _ _ ((histHas_eq_false_iff _ _).mp hmc)
  · rw [hsetc]
    exact histGet_append_of_not_mem _ _ _ ((histHas_eq_false_iff _ _).mp hc)
  · rw [hsetp]
    exact histGet_append_of_not_mem _ _ _ ((histHas_eq_false_iff _ _).mp hp)

/-- Witness for C2_amended at a concrete fresh tracker: all hypotheses hold at
the chosen inputs and the amended round-trip behaviour follows. -/
theorem C2_amended_witness :
    histHas (MessageTracker.fresh "d").messageHistory (mkMessageKey "s" (some 5)) = false ∧
    histHas (MessageTracker.fresh "d").commentHistory "c" = false ∧
    histHas (MessageTracker.fresh "d").postbackHistory (mkPostbackKey "s" "p" (some 5)) = false ∧
    0 + 300000 < 300001 ∧
    DedupRoundTrip (MessageTracker.fresh "d") "s" "p" "c" "message" (some 5) 0 400000 300001 :=
  ⟨by decide, by decide, by decide, by decide,
   C2_amended (MessageTracker.fresh "d") "s" "p" "c" "message" (some 5) 0 400000 300001
     (by decide) (by decide) (by decide) (by decide)⟩

/-- A fresh feed comment goes through the non-duplicate path: the comment id
is recorded, trackComment runs and botState.commentsProcessed is bumped. -/
theorem processFeedEvent_fresh (reactors : List CommentReactor) (ch : FeedChange)
    (tr : MessageTracker) (bs : BotState) (now : Millis) (today : String)
    (hfield : ch.field = "feed") (hitem : ch.item = "comment") (hverb : ch.verb = "add")
    (hc : histHas tr.commentHistory ch.commentId = false) :
    (processFeedEvent reactors ch tr bs now today).tracker =
      trackComment
        { tr with commentHistory := histSet tr.commentHistory ch.commentId ⟨now, none, now + 300000⟩ }
        today ∧
    (processFeedEvent reactors ch tr bs now today).bot =
      { bs with commentsProcessed := bs.commentsProcessed + 1 } := by
  simp [processFeedEvent, hfield, hitem, hverb, isDuplicateComment_of_not_has _ _ now hc]

/-- After a fresh messaging event is processed, any second messaging event
with the same sender and the same entry timestamp is suppressed, whatever its
body and payload: no effects, a bumped duplicates counter, untouched
botState. -/
theorem processMessagingEvent_second_dup (cfg : BotConfig) (cmds : List CommandPlugin)
    (pbs : List PostbackPlugin) (userPfx : Option String) (rand rand2 : Nat)
    (sender rid rid2 : String) (b1 b2 : MessagingEventBody) (ts : Option Nat)
    (tr : MessageTracker) (bs bs2 : BotState) (now now2 : Millis) (today today2 : String)
    (h : histHas tr.messageHistory (mkMessageKey sender ts) = false) :
    processMessagingEvent cfg cmds pbs userPfx rand2 ⟨sender, rid2, b2⟩ ts
        (processMessagingEvent cfg cmds pbs userPfx rand ⟨sender, rid, b1⟩ ts tr bs now today).tracker
        bs2 now2 today2 =
      ⟨[], bumpDuplicates
        (processMessagingEvent cfg cmds pbs userPfx rand ⟨sender, rid, b1⟩ ts tr bs now today).tracker,
        bs2⟩ := by
  have hfresh := processMessagingEvent_fresh cfg cmds pbs userPfx rand ⟨sender, rid, b1⟩ ts tr bs
    now today h
  have hmc : histHas (cleanOldEntries tr now).messageHistory (mkMessageKey sender ts) = false :=
    histHas_filter _ _ _ h
  have hh : histHas
      (processMessagingEvent cfg cmds pbs userPfx rand ⟨sender, rid, b1⟩ ts tr bs now today).tracker.messageHistory
      (mkMessageKey sender ts) = true := by
    rw [hfresh.1, (track_histories _ _ _).1]
    show histHas (histSet (cleanOldEntries tr now).messageHistory (mkMessageKey sender ts)
      ⟨now, some "message", now + 300000⟩) (mkMessageKey sender ts) = true
    rw [histSet_of_not_has _ _ _ hmc]
    exact histHas_append_self _ _ _
  exact processMessagingEvent_dup cfg cmds pbs userPfx rand2 ⟨sender, rid2, b2⟩ ts _ bs2 now2 today2 hh

/-!
Claim C1: the dedup identity key the dispatcher uses for postbacks.
-/

/-- Claim C1, counterexample: two postbacks from the same sender u with the
same entry timestamp 100 but different payloads A and B, each with a matching
registered plugin.  The first is dispatched (its plugin's start runs); the
second yields no effects at all — it is suppressed, because
processMessagingEvent keys deduplication on sender+timestamp through
isDuplicate and never calls isDuplicatePostback.  The claim requires both to
be dispatched. -/
theorem C1_counterexample :
    (processMessagingEvent ⟨"/", []⟩ [] [⟨"flip", "A", true, none⟩, ⟨"rps", "B", true, none⟩]
        none 0 ⟨"u", "page", MessagingEventBody.postback (Payload.str "A")⟩ (some 100)
        (MessageTracker.fresh "d") ⟨0, 0, 0⟩ 1000 "d").effects = [Effect.started "flip"] ∧
    (processMessagingEvent ⟨"/", []⟩ [] [⟨"flip", "A", true, none⟩, ⟨"rps", "B", true, none⟩]
        none 0 ⟨"u", "page", MessagingEventBody.postback (Payload.str "B")⟩ (some 100)
        (processMessagingEvent ⟨"/", []⟩ [] [⟨"flip", "A", true, none⟩, ⟨"rps", "B", true, none⟩]
          none 0 ⟨"u", "page", MessagingEventBody.postback (Payload.str "A")⟩ (some 100)
          (MessageTracker.fresh "d") ⟨0, 0, 0⟩ 1000 "d").tracker
        ⟨1, 0, 0⟩ 2000 "d").effects = [] := by
  decide

/-- Claim C1, amended: the dispatcher derives the duplicate-detection key for
every messaging event — postbacks included — from sender+timestamp alone, via
isDuplicate (isDuplicatePostback is never invoked).  A second delivery with
identical sender, payload and timestamp is therefore suppressed as the claim
says, but so is any second postback from the same sender with the same
timestamp and a different payload: after the first event is dispatched, the
second one produces no effects, bumps only the duplicates counter and leaves
the botState counters untouched. -/
theorem C1_amended (cfg : BotConfig) (cmds : List CommandPlugin)
    (pbs : List PostbackPlugin) (userPfx : Option String) (rand rand2 : Nat)
    (sender rid rid2 : String) (b1 b2 : MessagingEventBody) (ts : Option Nat)
    (tr : MessageTracker) (bs bs2 : BotState) (now now2 : Millis) (today today2 : String)
    (h : histHas tr.messageHistory (mkMessageKey sender ts) = false) :
    (processMessagingEvent cfg cmds pbs userPfx rand ⟨sender, rid, b1⟩ ts tr bs now today).bot =
      { bs with messagesProcessed := bs.messagesProcessed + 1 } ∧
    processMessagingEvent cfg cmds pbs userPfx rand2 ⟨sender, rid2, b2⟩ ts
        (processMessagingEvent cfg cmds pbs userPfx rand ⟨sender, rid, b1⟩ ts tr bs now today).tracker
        bs2 now2 today2 =
      ⟨[], bumpDuplicates
        (processMessagingEvent cfg cmds pbs userPfx rand ⟨sender, rid, b1⟩ ts tr bs now today).tracker,
        bs2⟩ :=
  ⟨(processMessagingEvent_fresh cfg cmds pbs userPfx rand ⟨sender, rid, b1⟩ ts tr bs now today h).2,
   processMessagingEvent_second_dup cfg cmds pbs userPfx rand rand2 sender rid rid2 b1 b2 ts
     tr bs bs2 now now2 today today2 h⟩

/-- Witness for C1_amended: two concrete postbacks with different payloads
from the same sender and timestamp; the hypothesis holds on the fresh tracker
and the amended suppression behaviour follows. -/
theorem C1_amended_witness :
    histHas (MessageTracker.fresh "d").messageHistory (mkMessageKey "u" (some 100)) = false ∧
    ((processMessagingEvent ⟨"/", []⟩ [] [⟨"flip", "A", true, none⟩, ⟨"rps", "B", true, none⟩]
        none 0 ⟨"u", "page", MessagingEventBody.postback (Payload.str "A")⟩ (some 100)
        (MessageTracker.fresh "d") ⟨0, 0, 0⟩ 1000 "d").bot =
      { messagesProcessed := 1, commentsProcessed := 0, postbacksProcessed := 0 } ∧
    processMessagingEvent ⟨"/", []⟩ [] [⟨"flip", "A", true, none⟩, ⟨"rps", "B", true, none⟩]
        none 0 ⟨"u", "page2", MessagingEventBody.postback (Payload.str "B")⟩ (some 100)
        (processMessagingEvent ⟨"/", []⟩ [] [⟨"flip", "A", true, none⟩, ⟨"rps", "B", true, none⟩]
          none 0 ⟨"u", "page", MessagingEventBody.postback (Payload.str "A")⟩ (some 100)
          (MessageTracker.fresh "d") ⟨0, 0, 0⟩ 1000 "d").tracker
        ⟨1, 0, 0⟩ 2000 "d" =
      ⟨[], bumpDuplicates
        (processMessagingEvent ⟨"/", []⟩ [] [⟨"flip", "A", true, none⟩, ⟨"rps", "B", true, none⟩]
          none 0 ⟨"u", "page", MessagingEventBody.postback (Payload.str "A")⟩ (some 100)
          (MessageTracker.fresh "d") ⟨0, 0, 0⟩ 1000 "d").tracker,
        ⟨1, 0, 0⟩⟩) :=
  ⟨by decide,
   C1_amended ⟨"/", []⟩ [] [⟨"flip", "A", true, none⟩, ⟨"rps", "B", true, none⟩]
     none 0 0 "u" "page" "page2" (MessagingEventBody.postback (Payload.str "A"))
     (MessagingEventBody.postback (Payload.str "B")) (some 100)
     (MessageTracker.fresh "d") ⟨0, 0, 0⟩ ⟨1, 0, 0⟩ 1000 2000 "d" "d" (by decide)⟩

/-!
Claim C7: which processed counter a non-duplicate event increments.
-/

/-- Claim C7, counterexample: a non-duplicate postback event with a matching
plugin is dispatched (start runs), yet the postbacks counters stay 0 — both
dailyCounts.postbacks and botState.postbacksProcessed — while the messages
counters are incremented, because the dispatcher calls track without a type
argument (defaulting to message) and bumps messagesProcessed on every
messaging event.  The claim requires the postbacks counter to be
incremented. -/
theorem C7_counterexample :
    (processMessagingEvent ⟨"/", []⟩ [] [⟨"flip", "A", true, none⟩] none 0
        ⟨"u", "page", MessagingEventBody.postback (Payload.str "A")⟩ (some 100)
        (MessageTracker.fresh "d") ⟨0, 0, 0⟩ 1000 "d").effects = [Effect.started "flip"] ∧
    (processMessagingEvent ⟨"/", []⟩ [] [⟨"flip", "A", true, none⟩] none 0
        ⟨"u", "page", MessagingEventBody.postback (Payload.str "A")⟩ (some 100)
        (MessageTracker.fresh "d") ⟨0, 0, 0⟩ 1000 "d").tracker.dailyCounts.postbacks = 0 ∧
    (processMessagingEvent ⟨"/", []⟩ [] [⟨"flip", "A", true, none⟩] none 0
        ⟨"u", "page", MessagingEventBody.postback (Payload.str "A")⟩ (some 100)
        (MessageTracker.fresh "d") ⟨0, 0, 0⟩ 1000 "d").tracker.dailyCounts.messages = 1 ∧
    (processMessagingEvent ⟨"/", []⟩ [] [⟨"flip", "A", true, none⟩] none 0
        ⟨"u", "page", MessagingEventBody.postback (Payload.str "A")⟩ (some 100)
        (MessageTracker.fresh "d") ⟨0, 0, 0⟩ 1000 "d").bot.postbacksProcessed = 0 ∧
    (processMessagingEvent ⟨"/", []⟩ [] [⟨"flip", "A", true, none⟩] none 0
        ⟨"u", "page", MessagingEventBody.postback (Payload.str "A")⟩ (some 100)
        (MessageTracker.fresh "d") ⟨0, 0, 0⟩ 1000 "d").bot.messagesProcessed = 1 := by
  decide

/-- Claim C7, amended: for every non-duplicate messaging event the dispatcher
increments the messages counters exactly once — dailyCounts.messages and
botState.messagesProcessed — before and independently of the handler outcome
(the equations hold for every plugin list, including plugins whose start
throws), and this for messages and postbacks alike: the postbacks counters
are never touched by the dispatch path.  Only comment feed events increment
the comments counters, likewise once and independently of the reactor
outcome. -/
theorem C7_amended (cfg : BotConfig) (cmds : List CommandPlugin)
    (pbs : List PostbackPlugin) (userPfx : Option String) (rand : Nat)
    (ev : MessagingEvent) (ts : Option Nat) (tr : MessageTracker) (bs : BotState)
    (now : Millis) (today : String)
    (h : histHas tr.messageHistory (mkMessageKey ev.senderId ts) = false)
    (hday : tr.lastReset = today)
    (reactors : List CommentReactor) (ch : FeedChange) (tr2 : MessageTracker)
    (bs2 : BotState) (now2 : Millis) (today2 : String)
    (hfield : ch.field = "feed") (hitem : ch.item = "comment") (hverb : ch.verb = "add")
    (hc : histHas tr2.commentHistory ch.commentId = false)
    (hday2 : tr2.lastReset = today2) :
    (processMessagingEvent cfg cmds pbs userPfx rand ev ts tr bs now today).tracker.dailyCounts =
      { tr.dailyCounts with messages := tr.dailyCounts.messages + 1 } ∧
    (processMessagingEvent cfg cmds pbs userPfx rand ev ts tr bs now today).bot =
      { bs with messagesProcessed := bs.messagesProcessed + 1 } ∧
    (processFeedEvent reactors ch tr2 bs2 now2 today2).tracker.dailyCounts =
      { tr2.dailyCounts with comments := tr2.dailyCounts.comments + 1 } ∧
    (processFeedEvent reactors ch tr2 bs2 now2 today2).bot =
      { bs2 with commentsProcessed := bs2.commentsProcessed + 1 } := by
  have hfresh := processMessagingEvent_fresh cfg cmds pbs userPfx rand ev ts tr bs now today h
  have hfeed := processFeedEvent_fresh reactors ch tr2 bs2 now2 today2 hfield hitem hverb hc
  refine ⟨?_, hfresh.2, ?_, hfeed.2⟩
  · cases ev with
    | mk senderId recipientId body =>
      cases body <;>
        simp [processMessagingEvent, isDuplicate, h, track, checkDailyReset, cleanOldEntries, hday]
  · simp [processFeedEvent, hfield, hitem, hverb, isDuplicateComment, hc, trackComment,
      checkDailyReset, hday2]

/-- Witness for C7_amended: a concrete non-duplicate postback event and a
concrete fresh comment feed event; all hypotheses hold and the amended
counter attribution follows. -/
theorem C7_amended_witness :
    histHas (MessageTracker.fresh "d").messageHistory (mkMessageKey "u" (some 100)) = false ∧
    (MessageTracker.fresh "d").lastReset = "d" ∧
    histHas (MessageTracker.fresh "d").commentHistory "c9" = false ∧
    ((processMessagingEvent ⟨"/", []⟩ [] [⟨"flip", "A", true, some (JsError.jsError "boom")⟩]
        none 0 ⟨"u", "page", MessagingEventBody.postback (Payload.str "A")⟩ (some 100)
        (MessageTracker.fresh "d") ⟨3, 4, 5⟩ 1000 "d").tracker.dailyCounts =
      { messages := 1, comments := 0, postbacks := 0, duplicates := 0 } ∧
    (processMessagingEvent ⟨"/", []⟩ [] [⟨"flip", "A", true, some (JsError.jsError "boom")⟩]
        none 0 ⟨"u", "page", MessagingEventBody.postback (Payload.str "A")⟩ (some 100)
        (MessageTracker.fresh "d") ⟨3, 4, 5⟩ 1000 "d").bot =
      { messagesProcessed := 4, commentsProcessed := 4, postbacksProcessed := 5 } ∧
    (processFeedEvent [] ⟨"feed", "comment", "add", "c9", "post", "v", "Vera", some "hi", none⟩
        (MessageTracker.fresh "d") ⟨3, 4, 5⟩ 1000 "d").tracker.dailyCounts =
      { messages := 0, comments := 1, postbacks := 0, duplicates := 0 } ∧
    (processFeedEvent [] ⟨"feed", "comment", "add", "c9", "post", "v", "Vera", some "hi", none⟩
        (MessageTracker.fresh "d") ⟨3, 4, 5⟩ 1000 "d").bot =
      { messagesProcessed := 3, commentsProcessed := 5, postbacksProcessed := 5 }) :=
  ⟨by decide, by decide, by decide,
   C7_amended ⟨"/", []⟩ [] [⟨"flip", "A", true, some (JsError.jsError "boom")⟩] none 0
     ⟨"u", "page", MessagingEventBody.postback (Payload.str "A")⟩ (some 100)
     (MessageTracker.fresh "d") ⟨3, 4, 5⟩ 1000 "d" (by decide) (by decide)
     [] ⟨"feed", "comment", "add", "c9", "post", "v", "Vera", some "hi", none⟩
     (MessageTracker.fresh "d") ⟨3, 4, 5⟩ 1000 "d" (by decide) (by decide) (by decide)
     (by decide) (by decide)⟩

/-!
Claim C8: behaviour when the identity key cannot be derived (missing
timestamp).
-/

/-- Claim C8, counterexample: two distinct text messages from the same sender
u, both without an entry timestamp.  The first is dispatched; the second
yields no effects and leaves the processed counter untouched — it is
suppressed, because JS string interpolation turns the missing timestamp into
the literal key u_undefined shared by both events.  The claim requires both
to be dispatched. -/
theorem C8_counterexample :
    (processMessagingEvent ⟨"/", []⟩ [] [] none 0
        ⟨"u", "page", MessagingEventBody.message ⟨some "hi", [], none⟩⟩ none
        (MessageTracker.fresh "d") ⟨0, 0, 0⟩ 1000 "d").effects =
      [Effect.sent "u" "Thanks for your message!"] ∧
    histHas (processMessagingEvent ⟨"/", []⟩ [] [] none 0
        ⟨"u", "page", MessagingEventBody.message ⟨some "hi", [], none⟩⟩ none
        (MessageTracker.fresh "d") ⟨0, 0, 0⟩ 1000 "d").tracker.messageHistory "u_undefined" = true ∧
    (processMessagingEvent ⟨"/", []⟩ [] [] none 0
        ⟨"u", "page", MessagingEventBody.message ⟨some "yo", [], none⟩⟩ none
        (processMessagingEvent ⟨"/", []⟩ [] [] none 0
          ⟨"u", "page", MessagingEventBody.message ⟨some "hi", [], none⟩⟩ none
          (MessageTracker.fresh "d") ⟨0, 0, 0⟩ 1000 "d").tracker
        ⟨1, 0, 0⟩ 2000 "d").effects = [] ∧
    (processMessagingEvent ⟨"/", []⟩ [] [] none 0
        ⟨"u", "page", MessagingEventBody.message ⟨some "yo", [], none⟩⟩ none
        (processMessagingEvent ⟨"/", []⟩ [] [] none 0
          ⟨"u", "page", MessagingEventBody.message ⟨some "hi", [], none⟩⟩ none
          (MessageTracker.fresh "d") ⟨0, 0, 0⟩ 1000 "d").tracker
        ⟨1, 0, 0⟩ 2000 "d").bot.messagesProcessed = 1 := by
  decide

/-- Claim C8, amended: a missing timestamp raises no error — the key
derivation never fails, it degenerates to the literal sender_undefined — and
the first such event is dispatched normally; but the dedup is then fail
closed, not fail open: every further event from the same sender that also
lacks a timestamp shares that degenerate key and is suppressed as a
duplicate while the entry remains. -/
theorem C8_amended (cfg : BotConfig) (cmds : List CommandPlugin)
    (pbs : List PostbackPlugin) (userPfx : Option String) (rand rand2 : Nat)
    (sender rid rid2 : String) (b1 b2 : MessagingEventBody)
    (tr : MessageTracker) (bs bs2 : BotState) (now now2 : Millis) (today today2 : String)
    (h : histHas tr.messageHistory (mkMessageKey sender none) = false) :
    mkMessageKey sender none = sender ++ "_" ++ "undefined" ∧
    (processMessagingEvent cfg cmds pbs userPfx rand ⟨sender, rid, b1⟩ none tr bs now today).bot =
      { bs with messagesProcessed := bs.messagesProcessed + 1 } ∧
    processMessagingEvent cfg cmds pbs userPfx rand2 ⟨sender, rid2, b2⟩ none
        (processMessagingEvent cfg cmds pbs userPfx rand ⟨sender, rid, b1⟩ none tr bs now today).tracker
        bs2 now2 today2 =
      ⟨[], bumpDuplicates
        (processMessagingEvent cfg cmds pbs userPfx rand ⟨sender, rid, b1⟩ none tr bs now today).tracker,
        bs2⟩ :=
  ⟨rfl,
   (processMessagingEvent_fresh cfg cmds pbs userPfx rand ⟨sender, rid, b1⟩ none tr bs now today h).2,
   processMessagingEvent_second_dup cfg cmds pbs userPfx rand rand2 sender rid rid2 b1 b2 none
     tr bs bs2 now now2 today today2 h⟩

/-- Witness for C8_amended: two concrete timestamp-less text messages from
the same sender on the fresh tracker. -/
theorem C8_amended_witness :
    histHas (MessageTracker.fresh "d").messageHistory (mkMessageKey "u" none) = false ∧
    (mkMessageKey "u" none = "u" ++ "_" ++ "undefined" ∧
    (processMessagingEvent ⟨"/", []⟩ [] [] none 0
        ⟨"u", "page", MessagingEventBody.message ⟨some "hi", [], none⟩⟩ none
        (MessageTracker.fresh "d") ⟨0, 0, 0⟩ 1000 "d").bot =
      { messagesProcessed := 1, commentsProcessed := 0, postbacksProcessed := 0 } ∧
    processMessagingEvent ⟨"/", []⟩ [] [] none 0
        ⟨"u", "page2", MessagingEventBody.message ⟨some "yo", [], none⟩⟩ none
        (processMessagingEvent ⟨"/", []⟩ [] [] none 0
          ⟨"u", "page", MessagingEventBody.message ⟨some "hi", [], none⟩⟩ none
          (MessageTracker.fresh "d") ⟨0, 0, 0⟩ 1000 "d").tracker
        ⟨1, 0, 0⟩ 2000 "d" =
      ⟨[], bumpDuplicates
        (processMessagingEvent ⟨"/", []⟩ [] [] none 0
          ⟨"u", "page", MessagingEventBody.message ⟨some "hi", [], none⟩⟩ none
          (MessageTracker.fresh "d") ⟨0, 0, 0⟩ 1000 "d").tracker,
        ⟨1, 0, 0⟩⟩) :=
  ⟨by decide,
   C8_amended ⟨"/", []⟩ [] [] none 0 0 "u" "page" "page2"
     (MessagingEventBody.message ⟨some "hi", [], none⟩)
     (MessagingEventBody.message ⟨some "yo", [], none⟩)
     (MessageTracker.fresh "d") ⟨0, 0, 0⟩ ⟨1, 0, 0⟩ 1000 2000 "d" "d" (by decide)⟩

/-- The call messageTracker.trackMessage always raises: the method list of the
tracker class has no such name. -/
theorem trackMessageCall_eq :
    trackMessageCall =
      Except.error (JsError.typeError "messageTracker.trackMessage is not a function") := by
  decide

/-!
Claim C3: whether the exposed entry points can reject outward.
-/

/-- Claim C3, evaluation at failing inputs: under perfectly normal operation —
a plain text message answered by the canned reply, a postback whose plugin
start completes, a comment a reactor handles — each of handleMessage,
handlePostback and handleComment rejects outward with the TypeError raised by
calling the nonexistent messageTracker.trackMessage (the catch block calls the
same missing method again, so the error escapes the entry point).  The claim,
matching the intended design, says none of them throw outward. -/
theorem C3_bug_eval :
    handleMessage ⟨"/", []⟩ [] [] none 0 ⟨some "hello", [], none⟩ "u" =
      ([Effect.sent "u" "Thanks for your message!"],
        Except.error (JsError.typeError "messageTracker.trackMessage is not a function")) ∧
    handlePostback [⟨"flip", "A", true, none⟩] (Payload.str "A") "u" =
      ([Effect.started "flip"],
        Except.error (JsError.typeError "messageTracker.trackMessage is not a function")) ∧
    handleComment [⟨"games", fun _ => Except.ok true⟩] ⟨"c1", "p1", "u", "U", "play", none⟩ =
      ([Effect.reactorRan "games"],
        Except.error (JsError.typeError "messageTracker.trackMessage is not a function")) := by
  decide

/-!
Claim C10: what happens after successful routing of a plain message.
-/

/-- Claim C10, counterexample: a message routed successfully (the ping command
plugin ran to completion) then hits the nonexistent trackMessage; control does
transfer to the error branch, but that branch calls the same missing method
before its sendMessage, so the apology is never sent — the claim asserts the
apology message is additionally sent.  Instead handleMessage rejects with the
TypeError and the effect list holds no apology. -/
theorem C10_counterexample :
    handleMessage ⟨"/", []⟩ [⟨"ping.js", ⟨"ping", none, none⟩, true, none⟩] [] none 0
        ⟨some "/ping", [], none⟩ "u" =
      ([Effect.started "ping.js"],
        Except.error (JsError.typeError "messageTracker.trackMessage is not a function")) ∧
    Effect.sent "u" "Sorry, I encountered an error processing your message. Please try again." ∉
      (handleMessage ⟨"/", []⟩ [⟨"ping.js", ⟨"ping", none, none⟩, true, none⟩] [] none 0
        ⟨some "/ping", [], none⟩ "u").1 := by
  decide

/-- Claim C10, amended: after any non-quick-reply message whose routing body
completes without throwing, handleMessage calls messageTracker.trackMessage, a
method that does not exist on MessageTracker; the TypeError transfers control
to the error branch, which calls the same missing method again before its
apology send, so no apology is sent and handleMessage rejects outward with
the TypeError, its effects being exactly the routing effects. -/
theorem C10_amended (cfg : BotConfig) (cmds : List CommandPlugin)
    (pbs : List PostbackPlugin) (userPfx : Option String) (rand : Nat)
    (text : Option String) (atts : List Attachment) (senderId : String)
    (hok : (routeMessage cfg cmds userPfx rand ⟨text, atts, none⟩ senderId).2 = Except.ok ()) :
    handleMessage cfg cmds pbs userPfx rand ⟨text, atts, none⟩ senderId =
      ((routeMessage cfg cmds userPfx rand ⟨text, atts, none⟩ senderId).1,
        Except.error (JsError.typeError "messageTracker.trackMessage is not a function")) := by
  rcases hr : routeMessage cfg cmds userPfx rand ⟨text, atts, none⟩ senderId with ⟨effs, r⟩
  rw [hr] at hok
  simp only at hok
  subst hok
  simp [handleMessage, hr, trackMessageCall_eq]

/-- Witness for C10_amended: the concrete successfully-routed ping command;
the routing body returns ok and handleMessage still rejects with the
TypeError, sending no apology. -/
theorem C10_amended_witness :
    (routeMessage ⟨"/", []⟩ [⟨"ping.js", ⟨"ping", none, none⟩, true, none⟩] none 0
        ⟨some "/ping", [], none⟩ "u").2 = Except.ok () ∧
    handleMessage ⟨"/", []⟩ [⟨"ping.js", ⟨"ping", none, none⟩, true, none⟩] [] none 0
        ⟨some "/ping", [], none⟩ "u" =
      ((routeMessage ⟨"/", []⟩ [⟨"ping.js", ⟨"ping", none, none⟩, true, none⟩] none 0
          ⟨some "/ping", [], none⟩ "u").1,
        Except.error (JsError.typeError "messageTracker.trackMessage is not a function")) :=
  ⟨by decide,
   C10_amended ⟨"/", []⟩ [⟨"ping.js", ⟨"ping", none, none⟩, true, none⟩] [] none 0
     (some "/ping") [] "u" (by decide)⟩

/-!
Claim C4: failure isolation between comment reactors.
-/

/-- The reactor loop up to a throwing reactor: the reactors before it all run
and decline, the throwing reactor runs, and the loop aborts with its error —
nothing after it is invoked. -/
theorem runReactors_throw (cd : CommentData) (pre post : List CommentReactor)
    (r : CommentReactor) (e : JsError)
    (hpre : ∀ q ∈ pre, q.run cd = Except.ok false)
    (hr : r.run cd = Except.error e) :
    runReactors (pre ++ r :: post) cd =
      (pre.map (fun q => Effect.reactorRan q.name) ++ [Effect.reactorRan r.name],
        Except.error e) := by
  induction pre with
  | nil => simp [runReactors, hr]
  | cons q rest ih =>
    have hq : q.run cd = Except.ok false := hpre q (by simp)
    have hrest : ∀ x ∈ rest, x.run cd = Except.ok false :=
      fun x hx => hpre x (by simp [hx])
    simp [runReactors, hq, ih hrest]

/-- Claim C4, counterexample: reactors r1 (whose run throws) and r2 in
registration order; handleComment invokes r1, the exception escapes the loop
into handleComment's catch, and r2 is never invoked — the claim requires r2
to still be tried. -/
theorem C4_counterexample :
    (handleComment
        [⟨"r1", fun _ => Except.error (JsError.jsError "boom")⟩,
         ⟨"r2", fun _ => Except.ok false⟩]
        ⟨"c1", "p1", "u", "U", "hello", none⟩).1 = [Effect.reactorRan "r1"] ∧
    Effect.reactorRan "r2" ∉
      (handleComment
        [⟨"r1", fun _ => Except.error (JsError.jsError "boom")⟩,
         ⟨"r2", fun _ => Except.ok false⟩]
        ⟨"c1", "p1", "u", "U", "hello", none⟩).1 := by
  decide

/-- Claim C4, amended: the try/catch of handleComment wraps the whole reactor
loop, so a reactor whose run throws aborts the chain: the reactors before it
run and decline, the throwing reactor runs, no later reactor is invoked, and
handleComment rejects with the trackMessage TypeError its catch block raises. -/
theorem C4_amended (cd : CommentData) (pre post : List CommentReactor)
    (r : CommentReactor) (e : JsError)
    (hpre : ∀ q ∈ pre, q.run cd = Except.ok false)
    (hr : r.run cd = Except.error e) :
    handleComment (pre ++ r :: post) cd =
      (pre.map (fun q => Effect.reactorRan q.name) ++ [Effect.reactorRan r.name],
        Except.error (JsError.typeError "messageTracker.trackMessage is not a function")) := by
  simp [handleComment, runReactors_throw cd pre post r e hpre hr, trackMessageCall_eq]

/-- Witness for C4_amended: one declining reactor, one throwing reactor and
one reactor after them; the invoked list stops at the throwing reactor. -/
theorem C4_amended_witness :
    (∀ q ∈ [(⟨"r0", fun _ => Except.ok false⟩ : CommentReactor)],
        q.run ⟨"c1", "p1", "u", "U", "hi", none⟩ = Except.ok false) ∧
    (⟨"r1", fun _ => Except.error (JsError.jsError "boom")⟩ : CommentReactor).run
        ⟨"c1", "p1", "u", "U", "hi", none⟩ = Except.error (JsError.jsError "boom") ∧
    handleComment
        ([⟨"r0", fun _ => Except.ok false⟩] ++
          (⟨"r1", fun _ => Except.error (JsError.jsError "boom")⟩ : CommentReactor) ::
            [⟨"r2", fun _ => Except.ok false⟩])
        ⟨"c1", "p1", "u", "U", "hi", none⟩ =
      ([Effect.reactorRan "r0", Effect.reactorRan "r1"],
        Except.error (JsError.typeError "messageTracker.trackMessage is not a function")) :=
  ⟨by decide, by decide,
   C4_amended ⟨"c1", "p1", "u", "U", "hi", none⟩
     [⟨"r0", fun _ => Except.ok false⟩] [⟨"r2", fun _ => Except.ok false⟩]
     ⟨"r1", fun _ => Except.error (JsError.jsError "boom")⟩ (JsError.jsError "boom")
     (by decide) (by decide)⟩

/-!
Claim C9: case handling in command lookup.
-/

/-- Claim C9, counterexample: a command registered under the uppercase name
PING.  The parser lowercases the typed token, so /PING parses to the command
ping, and the registry lookup — exact string comparison against the
registered name and aliases — finds nothing; handleCommand answers with the
not-found message.  The claim requires the plugin to be found regardless of
the case in which the name was registered. -/
theorem C9_counterexample :
    parseCommand "/PING" "/" = some ⟨"ping", [], "/PING"⟩ ∧
    findCommandPlugin [⟨"ping.js", ⟨"PING", none, none⟩, true, none⟩] "ping" = none ∧
    (handleCommand ⟨"/", []⟩ [⟨"ping.js", ⟨"PING", none, none⟩, true, none⟩]
        ⟨"ping", [], "/PING"⟩ "u").1 =
      [Effect.sent "u" "Command \"ping\" not found. Use /help to see available commands."] := by
  decide

/-- Claim C9, amended: lookup is case-insensitive only on the message side:
the parser lowercases the typed token, and the registry comparison is exact,
so for every plugin whose registered name (or one of whose registered
aliases) equals the lowercased token — in particular any plugin registered in
lowercase — every casing of that token in the message resolves to the plugin,
provided no earlier-registered plugin matches; a name or alias registered
with uppercase letters is never matched. -/
theorem C9_amended (text pfx w : String) (cd : CommandData)
    (pre post : List CommandPlugin) (p : CommandPlugin)
    (hparse : parseCommand text pfx = some cd)
    (hcmd : cd.command = strToLower w)
    (hmatch : p.config.name = strToLower w ∨
      (∃ al, p.config.aliases = some al ∧ strToLower w ∈ al))
    (hpre : ∀ q ∈ pre, matchesCommand q (strToLower w) = false) :
    findCommandPlugin (pre ++ p :: post) cd.command = some p := by
  rw [hcmd]
  have hm : matchesCommand p (strToLower w) = true := by
    rcases hmatch with h1 | ⟨al, hal, hmem⟩
    · simp [matchesCommand, h1]
    · simp [matchesCommand, hal, hmem]
  induction pre with
  | nil => simp [findCommandPlugin, List.find?, hm]
  | cons q rest ih =>
    have hq := hpre q (by simp)
    have hrest : ∀ x ∈ rest, matchesCommand x (strToLower w) = false :=
      fun x hx => hpre x (by simp [hx])
    simpa [findCommandPlugin, List.find?, hq] using ih hrest

/-- Witness for C9_amended: the spec's own example — a plugin registered with
name balance and alias bal, and the message /BAL — resolves to that plugin
because the parser lowercases BAL to bal and bal is among the registered
aliases. -/
theorem C9_amended_witness :
    parseCommand "/BAL" "/" = some ⟨"bal", [], "/BAL"⟩ ∧
    ("bal" : String) = strToLower "BAL" ∧
    findCommandPlugin [⟨"balance.js", ⟨"balance", some ["bal"], none⟩, true, none⟩]
        (CommandData.mk "bal" [] "/BAL").command =
      some ⟨"balance.js", ⟨"balance", some ["bal"], none⟩, true, none⟩ :=
  ⟨by decide, by decide,
   C9_amended "/BAL" "/" "BAL" ⟨"bal", [], "/BAL"⟩ []
     [] ⟨"balance.js", ⟨"balance", some ["bal"], none⟩, true, none⟩
     (by decide) (by decide)
     (Or.inr ⟨["bal"], rfl, by decide⟩) (by intro q hq; cases hq)⟩

/-!
Claim C5: visibility of intermediate registry states during reloadAll.
-/

/-- The state a lookup sees once a trace of registry states has fully played
out: its last element (or the default when the trace is empty). -/
def finalState (d : PluginRegistry) (l : List PluginRegistry) : PluginRegistry :=
  l.foldl (fun _ x => x) d

/-- The last state of a load trace is the fold of the loads. -/
theorem loadSteps_last (st : PluginRegistry) (fs : List PluginFile) :
    finalState st (loadSteps st fs) = fs.foldl loadFile st := by
  induction fs generalizing st with
  | nil => rfl
  | cons f rest ih => simpa [loadSteps, finalState] using ih (loadFile st f)

/-- Claim C5, counterexample: old registry holding the single command ping;
reloadAll discovers the two commands help and quote.  Among the registry
states observable while reloadAll runs are the cleared empty registry and the
state holding help alone — each distinct from both the complete old set and
the complete new set, where the claim allows only those two. -/
theorem C5_counterexample :
    emptyRegistry ∈ reloadAllStates
        (loadCommandPlugin emptyRegistry ⟨"ping.js", ⟨"ping", none, none⟩, true, none⟩)
        [⟨"help.js", ⟨"help", none, none⟩, true, none⟩,
         ⟨"quote.js", ⟨"quote", none, none⟩, true, none⟩] [] [] ∧
    loadCommandPlugin emptyRegistry ⟨"help.js", ⟨"help", none, none⟩, true, none⟩ ∈
      reloadAllStates
        (loadCommandPlugin emptyRegistry ⟨"ping.js", ⟨"ping", none, none⟩, true, none⟩)
        [⟨"help.js", ⟨"help", none, none⟩, true, none⟩,
         ⟨"quote.js", ⟨"quote", none, none⟩, true, none⟩] [] [] ∧
    emptyRegistry ≠
      loadCommandPlugin emptyRegistry ⟨"ping.js", ⟨"ping", none, none⟩, true, none⟩ ∧
    emptyRegistry ≠
      reloadAll (loadCommandPlugin emptyRegistry ⟨"ping.js", ⟨"ping", none, none⟩, true, none⟩)
        [⟨"help.js", ⟨"help", none, none⟩, true, none⟩,
         ⟨"quote.js", ⟨"quote", none, none⟩, true, none⟩] [] [] ∧
    loadCommandPlugin emptyRegistry ⟨"help.js", ⟨"help", none, none⟩, true, none⟩ ≠
      loadCommandPlugin emptyRegistry ⟨"ping.js", ⟨"ping", none, none⟩, true, none⟩ ∧
    loadCommandPlugin emptyRegistry ⟨"help.js", ⟨"help", none, none⟩, true, none⟩ ≠
      reloadAll (loadCommandPlugin emptyRegistry ⟨"ping.js", ⟨"ping", none, none⟩, true, none⟩)
        [⟨"help.js", ⟨"help", none, none⟩, true, none⟩,
         ⟨"quote.js", ⟨"quote", none, none⟩, true, none⟩] [] [] := by
  decide

/-- Claim C5, amended: reloadAll performs no swap — it clears the three
namespaces in place and repopulates them plugin by plugin, so the first state
a concurrent lookup can observe is the empty registry, partially-populated
states follow, and only the final state of the trace is the complete new set,
which equals loading every discovered plugin into an empty registry; the old
registry contents play no part in the result. -/
theorem C5_amended (st : PluginRegistry) (cs : List CommandPlugin)
    (ps : List PostbackPlugin) (ms : List CommentModule) :
    (reloadAllStates st cs ps ms).head? = some emptyRegistry ∧
    finalState emptyRegistry (reloadAllStates st cs ps ms) = reloadAll st cs ps ms ∧
    reloadAll st cs ps ms = loadAllPlugins emptyRegistry cs ps ms := by
  refine ⟨rfl, ?_, rfl⟩
  simpa [reloadAllStates, finalState, reloadAll, loadAllPlugins]
    using loadSteps_last emptyRegistry (filesOf cs ps ms)

/-!
Claim C6: duplicate command registration.
-/

/-- Set.add leaves the added key present. -/
theorem mem_setAdd (s : List String) (k : String) : k ∈ setAdd s k := by
  unfold setAdd
  split
  · next h => simpa using h
  · simp

/-- Claim C6, counterexample: two command plugin files both declaring the
name balance but different alias lists.  Their duplicate keys
(name + sorted aliases) differ, so both registrations are accepted: the
registry ends up with two commands named balance, and the duplicates
statistic reads 2 — it counts the accepted keys, not rejections.  The claim
requires exactly one present and a recorded rejection. -/
theorem C6_counterexample :
    (commandsNamed
        (loadCommandPlugin
          (loadCommandPlugin emptyRegistry ⟨"bal1.js", ⟨"balance", some ["a"], none⟩, true, none⟩)
          ⟨"bal2.js", ⟨"balance", some ["b"], none⟩, true, none⟩)
        "balance").length = 2 ∧
    statsDuplicates
        (loadCommandPlugin
          (loadCommandPlugin emptyRegistry ⟨"bal1.js", ⟨"balance", some ["a"], none⟩, true, none⟩)
          ⟨"bal2.js", ⟨"balance", some ["b"], none⟩, true, none⟩) = 2 := by
  decide

/-- Claim C6, amended: the duplicate key is name plus sorted aliases, so only
a second command plugin with the same name AND the same alias set (in any
order) is rejected: loading it is a no-op — the first stays registered under
its file basename and the duplicates statistic is unchanged, recording no
rejection (it counts accepted keys).  Two plugins sharing a name but
differing in aliases are both accepted. -/
theorem C6_amended (st : PluginRegistry) (p1 p2 : CommandPlugin)
    (hv : validateCommandPlugin p1 = true)
    (hname : p2.config.name = p1.config.name)
    (hal : sortStrings (p2.config.aliases.getD []) = sortStrings (p1.config.aliases.getD [])) :
    loadCommandPlugin (loadCommandPlugin st p1) p2 = loadCommandPlugin st p1 ∧
    statsDuplicates (loadCommandPlugin (loadCommandPlugin st p1) p2) =
      statsDuplicates (loadCommandPlugin st p1) := by
  have hkey : commandDuplicateKey p2 = commandDuplicateKey p1 := by
    simp [commandDuplicateKey, hname, hal]
  obtain ⟨st1, hst1⟩ : ∃ st1, loadCommandPlugin st p1 = st1 := ⟨_, rfl⟩
  have hdup : commandDuplicateKey p1 ∈ st1.duplicates := by
    rw [← hst1]
    by_cases hd : commandDuplicateKey p1 ∈ st.duplicates
    · simp [loadCommandPlugin, hv, hd]
    · simp [loadCommandPlugin, hv, hd]
      exact mem_setAdd _ _
  rw [hst1]
  have hmain : loadCommandPlugin st1 p2 = st1 := by
    by_cases hv2 : validateCommandPlugin p2 = true
    · simp [loadCommandPlugin, hv2, hkey, hdup]
    · have hv2' : validateCommandPlugin p2 = false := by simpa using hv2
      simp [loadCommandPlugin, hv2']
  exact ⟨hmain, by rw [hmain]⟩

/-- Witness for C6_amended: two files both declaring name balance with the
same aliases in different order (sorted equal), the first valid; loading the
second is a no-op and the duplicates statistic does not move. -/
theorem C6_amended_witness :
    validateCommandPlugin ⟨"bal1.js", ⟨"balance", some ["b", "a"], none⟩, true, none⟩ = true ∧
    (CommandPlugin.mk "bal2.js" ⟨"balance", some ["a", "b"], none⟩ true none).config.name =
      (CommandPlugin.mk "bal1.js" ⟨"balance", some ["b", "a"], none⟩ true none).config.name ∧
    sortStrings ["a", "b"] = sortStrings ["b", "a"] ∧
    (loadCommandPlugin
        (loadCommandPlugin emptyRegistry ⟨"bal1.js", ⟨"balance", some ["b", "a"], none⟩, true, none⟩)
        ⟨"bal2.js", ⟨"balance", some ["a", "b"], none⟩, true, none⟩ =
      loadCommandPlugin emptyRegistry ⟨"bal1.js", ⟨"balance", some ["b", "a"], none⟩, true, none⟩ ∧
    statsDuplicates
        (loadCommandPlugin
          (loadCommandPlugin emptyRegistry ⟨"bal1.js", ⟨"balance", some ["b", "a"], none⟩, true, none⟩)
          ⟨"bal2.js", ⟨"balance", some ["a", "b"], none⟩, true, none⟩) =
      statsDuplicates
        (loadCommandPlugin emptyRegistry ⟨"bal1.js", ⟨"balance", some ["b", "a"], none⟩, true, none⟩)) :=
  ⟨by decide, by decide, by decide,
   C6_amended emptyRegistry ⟨"bal1.js", ⟨"balance", some ["b", "a"], none⟩, true, none⟩
     ⟨"bal2.js", ⟨"balance", some ["a", "b"], none⟩, true, none⟩
     (by decide) (by decide) (by decide)⟩

end PageBot
